import Mathlib

/-!
Verification development for the fastrg-controller control plane.

The Go sources under internal/server are shallowly embedded: the etcd
store is an association list from keys to domain values, JSON decoding of
a stored value is modelled by its outcome (a decoded record or a decoding
failure), and every handler becomes a pure function from request data and
store state to an HTTP outcome plus the successor state.  Go machine
integers are modelled as unbounded Int; none of the statements below
depends on behaviour at the 64-bit overflow boundary.
-/

namespace FastRG

/-! ### Go numeric parsing and formatting -/

/-- Value of a digit list read in base 10 (most significant first). -/
def digitsToNat (l : List Char) : Nat :=
  l.foldl (fun acc c => acc * 10 + (c.toNat - 48)) 0

/-- Embedding of Go strconv.Atoi: an optional sign followed by one or
more decimal digits and nothing else; anything else is an error. -/
def goAtoi (s : String) : Option Int :=
  match s.toList with
  | [] => none
  | '+' :: ds =>
      if ds ≠ [] ∧ ds.all Char.isDigit then some (digitsToNat ds) else none
  | '-' :: ds =>
      if ds ≠ [] ∧ ds.all Char.isDigit then some (-(digitsToNat ds : Int)) else none
  | ds =>
      if ds.all Char.isDigit then some (digitsToNat ds) else none

/-- Longest digit run at the head of a character list, with the rest. -/
def takeDigits : List Char → List Char × List Char
  | [] => ([], [])
  | c :: rest =>
      if c.isDigit then
        let p := takeDigits rest
        (c :: p.1, p.2)
      else ([], c :: rest)

/-- Embedding of scanning a value with the %d verb of fmt.Sscanf: leading
spaces and tabs are skipped, an optional sign and at least one decimal
digit are read, and any trailing characters are ignored. -/
def sscanfD (s : String) : Option Int :=
  let l := s.toList.dropWhile (fun c => c == ' ' || c == '\t')
  match l with
  | '+' :: rest =>
      if (takeDigits rest).1.isEmpty then none
      else some (digitsToNat (takeDigits rest).1)
  | '-' :: rest =>
      if (takeDigits rest).1.isEmpty then none
      else some (-(digitsToNat (takeDigits rest).1 : Int))
  | rest =>
      if (takeDigits rest).1.isEmpty then none
      else some (digitsToNat (takeDigits rest).1)

/-- Embedding of Go fmt.Sprintf with the %d verb on an int. -/
def goItoa (n : Int) : String := toString n

/-! ### The etcd store

An etcd keyspace holding values of type alpha is an association list with
pairwise distinct keys; a ranged read returns the matching pairs sorted
by key, ascending by default, as the client library does. -/

abbrev KVStore (α : Type) := List (String × α)

/-- Point read of a key. -/
def etcdGet {α : Type} (st : KVStore α) (k : String) : Option α :=
  match st with
  | [] => none
  | kv :: rest => if kv.1 = k then some kv.2 else etcdGet rest k

/-- Write, replacing any existing record at the key. -/
def etcdPut {α : Type} (st : KVStore α) (k : String) (v : α) : KVStore α :=
  match st with
  | [] => [(k, v)]
  | kv :: rest => if kv.1 = k then (k, v) :: rest else kv :: etcdPut rest k v

/-- Delete of a key (a no-op when the key is absent). -/
def etcdDelete {α : Type} (st : KVStore α) (k : String) : KVStore α :=
  st.filter (fun kv => kv.1 != k)

/-- Whether the first character list starts the second. -/
def listPre : List Char → List Char → Bool
  | [], _ => true
  | _ :: _, [] => false
  | a :: as, b :: bs => a == b && listPre as bs

/-- Whether the key p starts the key s. -/
def strIsPre (p s : String) : Bool := listPre p.toList s.toList

/-- All pairs whose key extends the given range start, unordered. -/
def underKey {α : Type} (p : String) (st : KVStore α) : KVStore α :=
  st.filter (fun kv => strIsPre p kv.1)

/-- Lexicographic comparison of character lists by code point; on the
ASCII keys of this system it coincides with the bytewise key order used
by the store. -/
def lexLe : List Char → List Char → Bool
  | [], _ => true
  | _ :: _, [] => false
  | a :: as, b :: bs =>
      if a.toNat < b.toNat then true
      else if b.toNat < a.toNat then false
      else lexLe as bs

/-- Bytewise key order of the store. -/
def keyLe (a b : String) : Bool := lexLe a.toList b.toList

/-- Insertion into a list sorted ascending by key. -/
def insertAsc {α : Type} (kv : String × α) : KVStore α → KVStore α
  | [] => [kv]
  | h :: t => if keyLe kv.1 h.1 then kv :: h :: t else h :: insertAsc kv t

/-- Insertion sort, ascending by key. -/
def sortAsc {α : Type} : KVStore α → KVStore α
  | [] => []
  | h :: t => insertAsc h (sortAsc t)

/-- Insertion into a list sorted descending by key. -/
def insertDesc {α : Type} (kv : String × α) : KVStore α → KVStore α
  | [] => [kv]
  | h :: t => if keyLe h.1 kv.1 then kv :: h :: t else h :: insertDesc kv t

/-- Insertion sort, descending by key. -/
def sortDesc {α : Type} : KVStore α → KVStore α
  | [] => []
  | h :: t => insertDesc h (sortDesc t)

/-- Ranged read in the default ascending key order. -/
def rangeAsc {α : Type} (st : KVStore α) (p : String) : KVStore α :=
  sortAsc (underKey p st)

/-- Ranged read sorted descending by key (SortByKey, SortDescend). -/
def rangeDesc {α : Type} (st : KVStore α) (p : String) : KVStore α :=
  sortDesc (underKey p st)

/-- Suffix of a string after dropping its first n characters; on the
ASCII keys of this system it matches the Go slice key[n:]. -/
def dropStr (s : String) (n : Nat) : String :=
  (s.toList.drop n).asString

/-! ### HSI configuration records (prometheus_server.go)

JSON decoding of a stored value is modelled by its outcome: a stored
value is either the decoded record or a decoding failure. -/

structure HSIConfig where
  userId : String
  vlanId : String
  accountName : String
  password : String
  dhcpAddrPool : String
  dhcpSubnet : String
  dhcpGateway : String
deriving DecidableEq, Repr

structure HSIMetadata where
  node : String
  resourceVersion : String
  updatedBy : String
  updatedAt : String
  enableStatus : String
deriving DecidableEq, Repr

structure HSIConfigWithMetadata where
  config : HSIConfig
  metadata : HSIMetadata
deriving DecidableEq, Repr

inductive HSIStored where
  | parsed (c : HSIConfigWithMetadata)
  | malformed
deriving DecidableEq, Repr

structure SubscriberCountMetadata where
  node : String
  resourceVersion : String
  updatedAt : String
  updatedBy : String
deriving DecidableEq, Repr

structure SubscriberCountData where
  metadata : SubscriberCountMetadata
  subscriberCount : String
deriving DecidableEq, Repr

inductive CountStored where
  | parsed (d : SubscriberCountData)
  | malformed
deriving DecidableEq, Repr

/-- Key of the HSI record of a user on a node. -/
def hsiKey (nodeId userId : String) : String :=
  "configs/" ++ nodeId ++ "/hsi/" ++ userId

/-- Range start of the HSI records of a node. -/
def hsiRangeKey (nodeId : String) : String :=
  "configs/" ++ nodeId ++ "/hsi/"

/-- Key of the subscriber count record of a node. -/
def countKey (nodeId : String) : String :=
  "user_counts/" ++ nodeId ++ "/"

/-- The stores the HSI handlers touch. -/
structure ConfigStores where
  hsi : KVStore HSIStored
  counts : KVStore CountStored
deriving DecidableEq, Repr

/-- Outcome of a REST handler: HTTP status, the error or message body,
and the successor store state. -/
structure RestOut where
  status : Nat
  body : String
  stores : ConfigStores
deriving DecidableEq, Repr

/-- Embedding of RestServer.getNextResourceVersion: "1" when the key is
absent, "2" when the current value does not decode or its version field
is empty or does not scan as %d, else the scanned version plus one. -/
def getNextResourceVersion (hsi : KVStore HSIStored) (k : String) : String :=
  match etcdGet hsi k with
  | none => "1"
  | some HSIStored.malformed => "2"
  | some (HSIStored.parsed c) =>
      if c.metadata.resourceVersion = "" then "2"
      else
        match sscanfD c.metadata.resourceVersion with
        | none => "2"
        | some n => goItoa (n + 1)

/-- Embedding of RestServer.GetSubscriberCount: -1 unless the count
record exists, decodes, and its subscriber count string parses via
strconv.Atoi. -/
def getSubscriberCount (counts : KVStore CountStored) (nodeId : String) : Int :=
  match etcdGet counts (countKey nodeId) with
  | none => -1
  | some CountStored.malformed => -1
  | some (CountStored.parsed d) =>
      match goAtoi d.subscriberCount with
      | none => -1
      | some n => n

/-- The user-id-exceeds-count test shared by the HSI handlers: hits only
when the count is nonnegative and the user id parses and exceeds it. -/
def scFilterHit (sc : Int) (userId : String) : Bool :=
  if 0 ≤ sc then
    match goAtoi userId with
    | some u => decide (sc < u)
    | none => false
  else false

/-- Scan of the decoded records in key order: the first record whose
vlan id equals the requested one under a different user id wins. -/
def vlanScan (kvs : KVStore HSIStored) (vlanId currentUserId : String) :
    Bool × String :=
  match kvs with
  | [] => (false, "")
  | (_, HSIStored.malformed) :: rest => vlanScan rest vlanId currentUserId
  | (_, HSIStored.parsed c) :: rest =>
      if c.config.vlanId = vlanId ∧ c.config.userId ≠ currentUserId then
        (true, c.config.userId)
      else vlanScan rest vlanId currentUserId

/-- Embedding of RestServer.isVlanInUse. -/
def isVlanInUse (hsi : KVStore HSIStored) (nodeId vlanId currentUserId : String) :
    Bool × String :=
  vlanScan (rangeAsc hsi (hsiRangeKey nodeId)) vlanId currentUserId

/-- Embedding of RestServer.isHSIConfigEnabled: "unknown" when the key is
absent, an error when the value does not decode, else the stored
enable status. -/
def isHSIConfigEnabled (hsi : KVStore HSIStored) (nodeId userId : String) :
    Except Unit String :=
  match etcdGet hsi (hsiKey nodeId userId) with
  | none => Except.ok "unknown"
  | some HSIStored.malformed => Except.error ()
  | some (HSIStored.parsed c) => Except.ok c.metadata.enableStatus

/-- The eight non-empty-field validations shared by create and update,
returning the first failing message as in the Go handlers. -/
def hsiFieldCheck (config : HSIConfig) : Option String :=
  if config.userId = "" then some "User ID is required"
  else if config.vlanId = "" then some "VLAN ID is required"
  else if config.accountName = "" then some "Account Name is required"
  else if config.password = "" then some "Password is required"
  else if config.dhcpAddrPool = "" then some "DHCP Address Pool is required"
  else if config.dhcpSubnet = "" then some "DHCP Subnet is required"
  else if config.dhcpGateway = "" then some "DHCP Gateway is required"
  else none

/-- Embedding of RestServer.CreateHSIConfig.  The username argument is
the outcome of getUserFromToken on the authorization header, and now is
the formatted UTC timestamp of the request. -/
def createHSIConfig (st : ConfigStores) (nodeId : String) (config : HSIConfig)
    (username : Option String) (now : String) : RestOut :=
  if nodeId = "" then ⟨400, "Node ID is required", st⟩
  else
    match hsiFieldCheck config with
    | some msg => ⟨400, msg, st⟩
    | none =>
        let sc := getSubscriberCount st.counts nodeId
        if scFilterHit sc config.userId then
          ⟨400, "User ID exceeds subscriber count", st⟩
        else
          let vc := isVlanInUse st.hsi nodeId config.vlanId config.userId
          if vc.1 then
            ⟨409, "Input VLAN has been already used by other user: " ++ vc.2, st⟩
          else
            match username with
            | none => ⟨401, "Failed to get user from token", st⟩
            | some user =>
                let k := hsiKey nodeId config.userId
                let rv := getNextResourceVersion st.hsi k
                let stored := HSIConfigWithMetadata.mk config
                  ⟨nodeId, rv, user, now, "disabled"⟩
                ⟨200, "HSI config created successfully",
                 ⟨etcdPut st.hsi k (HSIStored.parsed stored), st.counts⟩⟩

/-- Embedding of RestServer.UpdateHSIConfig. -/
def updateHSIConfig (st : ConfigStores) (nodeId userId : String)
    (config : HSIConfig) (username : Option String) (now : String) : RestOut :=
  if nodeId = "" ∨ userId = "" then ⟨400, "Node ID and User ID are required", st⟩
  else
    match hsiFieldCheck config with
    | some msg => ⟨400, msg, st⟩
    | none =>
        if config.userId ≠ userId then ⟨400, "User ID mismatch", st⟩
        else
          let sc := getSubscriberCount st.counts nodeId
          if scFilterHit sc config.userId then
            ⟨400, "User ID exceeds subscriber count", st⟩
          else
            let vc := isVlanInUse st.hsi nodeId config.vlanId userId
            if vc.1 then
              ⟨409, "Input VLAN has been already used by other user: " ++ vc.2, st⟩
            else
              match username with
              | none => ⟨401, "Failed to get user from token", st⟩
              | some user =>
                  let k := hsiKey nodeId userId
                  let rv := getNextResourceVersion st.hsi k
                  match isHSIConfigEnabled st.hsi nodeId userId with
                  | Except.error _ => ⟨500, "Failed to get current config status", st⟩
                  | Except.ok es =>
                      let stored := HSIConfigWithMetadata.mk config
                        ⟨nodeId, rv, user, now, es⟩
                      ⟨200, "HSI config updated successfully",
                       ⟨etcdPut st.hsi k (HSIStored.parsed stored), st.counts⟩⟩

/-- Embedding of RestServer.GetHSIConfig.  A found decoded record is
served with status 200; the record payload itself is not modelled in the
body. -/
def getHSIConfig (st : ConfigStores) (nodeId userId : String) : RestOut :=
  if nodeId = "" ∨ userId = "" then ⟨400, "Node ID and User ID are required", st⟩
  else
    let sc := getSubscriberCount st.counts nodeId
    if scFilterHit sc userId then
      ⟨400, "User ID exceeds subscriber count", st⟩
    else
      match etcdGet st.hsi (hsiKey nodeId userId) with
      | none => ⟨500, "HSI config not found", st⟩
      | some (HSIStored.parsed _) => ⟨200, "", st⟩
      | some HSIStored.malformed => ⟨500, "Failed to parse HSI config", st⟩

/-- Result of the user id listing handler. -/
inductive UserIdsResult where
  | badRequest (msg : String)
  | ok (userIds : List String)
deriving DecidableEq, Repr

/-- Embedding of RestServer.GetHSIUserIds: key suffixes under the HSI
range of the node, with numeric ids above a nonnegative subscriber count
dropped. -/
def getHSIUserIds (st : ConfigStores) (nodeId : String) : UserIdsResult :=
  if nodeId = "" then UserIdsResult.badRequest "Node ID is required"
  else
    let pre := hsiRangeKey nodeId
    let kvs := rangeAsc st.hsi pre
    let sc := getSubscriberCount st.counts nodeId
    UserIdsResult.ok (kvs.filterMap (fun kv =>
      if pre.length < kv.1.length then
        let userId := dropStr kv.1 pre.length
        if 0 ≤ sc then
          match goAtoi userId with
          | some u => if sc < u then none else some userId
          | none => some userId
        else some userId
      else none))

/-! ### Auth middleware (prometheus_server.go AuthMiddlewareWithBlacklist)

Token signature and expiry verification is an opaque predicate on the
header, and the revocation point-read is a function from the blacklist
key to either a store error or the optional stored value. -/

inductive AuthOutcome where
  | next
  | unauthorized (msg : String)
  | serverError (msg : String)
deriving DecidableEq, Repr

/-- Embedding of AuthMiddlewareWithBlacklist. -/
def authMiddlewareWithBlacklist (tokenValid : String → Bool)
    (blRead : String → Except Unit (Option String)) (authHeader : String) :
    AuthOutcome :=
  if authHeader = "" then AuthOutcome.unauthorized "Missing Authorization header"
  else if ¬ tokenValid authHeader then AuthOutcome.unauthorized "Invalid token"
  else
    match blRead ("token_blacklist/" ++ authHeader) with
    | Except.error _ => AuthOutcome.serverError "Authentication service unavailable"
    | Except.ok (some _) => AuthOutcome.unauthorized "Token has been revoked"
    | Except.ok none => AuthOutcome.next

/-! ### Node registry and the two unregister paths

The registry state is the nodes keyspace (raw stored documents) together
with the key set of the monitor map owned by the supervisor. -/

structure RegistryState where
  nodes : KVStore String
  monitors : List String
deriving DecidableEq, Repr

/-- Monitor-map effect of NodeMonitorManager.StopMonitoring: a no-op when
the uuid is not monitored, otherwise removal from the map. -/
def stopMonitoringMap (monitors : List String) (uuid : String) : List String :=
  if uuid ∈ monitors then monitors.filter (fun x => x != uuid) else monitors

inductive GrpcUnregOut where
  | failure (msg : String)
  | success
deriving DecidableEq, Repr

/-- Embedding of GrpcServer.UnregisterNode: existence check, stop
monitoring, delete the key. -/
def unregisterNodeGrpc (st : RegistryState) (uuid : String) :
    GrpcUnregOut × RegistryState :=
  if uuid = "" then (GrpcUnregOut.failure "node_uuid is required", st)
  else
    match etcdGet st.nodes ("nodes/" ++ uuid) with
    | none => (GrpcUnregOut.failure "node not registered", st)
    | some _ =>
        (GrpcUnregOut.success,
         ⟨etcdDelete st.nodes ("nodes/" ++ uuid),
          stopMonitoringMap st.monitors uuid⟩)

structure RestSimpleOut where
  status : Nat
  body : String
deriving DecidableEq, Repr

/-- Embedding of RestServer.UnregisterNode (REST DELETE): existence
check, delete the key; the handler holds no monitor manager and never
touches the monitor map. -/
def unregisterNodeRest (st : RegistryState) (uuid : String) :
    RestSimpleOut × RegistryState :=
  if uuid = "" then (⟨400, "Node UUID is required"⟩, st)
  else
    match etcdGet st.nodes ("nodes/" ++ uuid) with
    | none => (⟨404, "Node not found"⟩, st)
    | some _ =>
        (⟨200, "Node unregistered successfully"⟩,
         ⟨etcdDelete st.nodes ("nodes/" ++ uuid), st.monitors⟩)

/-! ### Metric registry and the stop path (node_monitor.go) -/

/-- One labelled gauge series: its family name and its label values in
declaration order; node_uuid is the first label of every family. -/
structure Series where
  family : String
  labelValues : List String
deriving DecidableEq, Repr

abbrev MetricRegistry := List Series

/-- Embedding of GaugeVec.DeleteLabelValues on one family. -/
def deleteLabelValues (reg : MetricRegistry) (fam : String)
    (vals : List String) : MetricRegistry :=
  reg.filter (fun s => !(s.family == fam && s.labelValues == vals))

/-- The seven NIC-indexed families named in deleteNodeMetrics. -/
def nicFamilies : List String :=
  ["fastrg_node_rx_packets_total", "fastrg_node_tx_packets_total",
   "fastrg_node_rx_bytes_total", "fastrg_node_tx_bytes_total",
   "fastrg_node_rx_errors_total", "fastrg_node_tx_errors_total",
   "fastrg_node_rx_dropped_total"]

/-- Embedding of NodeMonitorManager.deleteNodeMetrics: for nic indices 0
and 1, delete the seven NIC-indexed families at (uuid, index). -/
def deleteNodeMetrics (reg : MetricRegistry) (uuid : String) : MetricRegistry :=
  (List.range 2).foldl
    (fun acc i =>
      nicFamilies.foldl
        (fun acc2 fam => deleteLabelValues acc2 fam [uuid, toString i]) acc)
    reg

structure MonitorMgrState where
  monitors : List String
  registry : MetricRegistry
deriving DecidableEq, Repr

/-- Embedding of NodeMonitorManager.stopMonitoringLocked: when the uuid
is monitored, cancel and close (not modelled), delete its metrics, and
remove it from the map. -/
def stopMonitoringLocked (st : MonitorMgrState) (uuid : String) : MonitorMgrState :=
  if uuid ∈ st.monitors then
    ⟨st.monitors.filter (fun x => x != uuid), deleteNodeMetrics st.registry uuid⟩
  else st

/-! ### NIC counter scrape (node_monitor.go getNicCounter)

List indexing is modelled by goIdx, which returns none exactly when the
Go indexing expression would be out of range and panic. -/

structure PerUserStat where
  userId : Nat
  rxPackets : Nat
  rxBytes : Nat
  txPackets : Nat
  txBytes : Nat
  droppedPackets : Nat
  droppedBytes : Nat
deriving DecidableEq, Repr, Inhabited

structure NicStat where
  rxPackets : Nat
  txPackets : Nat
  rxBytes : Nat
  txBytes : Nat
  rxErrors : Nat
  txErrors : Nat
  rxDropped : Nat
  perUserStats : List PerUserStat
deriving DecidableEq, Repr

/-- Go slice indexing: none models the out-of-range panic. -/
def goIdx {α : Type} (l : List α) (i : Int) : Option α :=
  if i < 0 then none else l[i.toNat]?

/-- The per-user loop of getNicCounter: reads slots i, i+1, ... for the
given number of iterations. -/
def readFrom (l : List PerUserStat) : Nat → Nat → Option (List PerUserStat)
  | _, 0 => some []
  | i, n + 1 =>
      match goIdx l (Int.ofNat i) with
      | none => none
      | some x => (readFrom l (i + 1) n).map (fun r => x :: r)

/-- The list accesses getNicCounter performs on one NIC stat: slots 0
through len - 2 in the per-user loop, then slot len - 1 as the
unknown-user stat. -/
def nicAccess (stat : NicStat) : Option (List PerUserStat × PerUserStat) :=
  match readFrom stat.perUserStats 0 (stat.perUserStats.length - 1) with
  | none => none
  | some users =>
      match goIdx stat.perUserStats ((stat.perUserStats.length : Int) - 1) with
      | none => none
      | some unknownStat => some (users, unknownStat)

/-- Embedding of getNicCounter over the scrape response stats: the
per-user stats read for each NIC and the unknown-user stat; none models
a panic on some access. -/
def getNicCounter (stats : List NicStat) :
    Option (List (List PerUserStat × PerUserStat)) :=
  match stats with
  | [] => some []
  | s :: rest =>
      match nicAccess s with
      | none => none
      | some r => (getNicCounter rest).map (fun rs => r :: rs)

/-! ### Failed-event read API (prometheus_server.go)

A stored history value either decodes to an event, of which only the
optional event_type string field and an opaque payload matter here, or
fails to decode. -/

inductive FEStored where
  | parsed (eventType : Option String) (payload : String)
  | malformed
deriving DecidableEq, Repr

/-- The per-event keep-or-skip step of GetAllFailedEvents: undecodable
values are skipped; with a nonempty filter, an event whose event_type is
a string different from the filter is skipped, and an event without a
string event_type field is kept. -/
def feKeep (filterTy : String) (v : FEStored) : Option (Option String × String) :=
  match v with
  | FEStored.malformed => none
  | FEStored.parsed et p =>
      if filterTy ≠ "" then
        match et with
        | some t => if t ≠ filterTy then none else some (et, p)
        | none => some (et, p)
      else some (et, p)

/-- Embedding of RestServer.GetAllFailedEvents. -/
def getAllFailedEvents (fe : KVStore FEStored) (filterTy : String) :
    List (Option String × String) :=
  (rangeDesc fe "failed_events_history/").filterMap (fun kv => feKeep filterTy kv.2)

inductive FEResult where
  | badRequest (msg : String)
  | ok (events : List (Option String × String))
deriving DecidableEq, Repr

/-- Embedding of RestServer.GetFailedEvents (one node, no filter). -/
def getFailedEvents (fe : KVStore FEStored) (nodeId : String) : FEResult :=
  if nodeId = "" then FEResult.badRequest "Node ID is required"
  else
    FEResult.ok ((rangeDesc fe ("failed_events_history/" ++ nodeId ++ "/")).filterMap
      (fun kv => feKeep "" kv.2))

/-! ### Specification-side definitions

Each spec... definition below transcribes the words of a claim (or of
its amended form) and is compared with the code embedding above. -/

/-- Claim C3 wording: "1" if no record currently exists at the key,
string of parsed plus one where the existing resource-version parses as
a decimal integer, and "2" whenever the existing value or its
resource-version field is unparseable, including an empty version
string. -/
def specNextResourceVersion (hsi : KVStore HSIStored) (k : String) : String :=
  match etcdGet hsi k with
  | none => "1"
  | some HSIStored.malformed => "2"
  | some (HSIStored.parsed c) =>
      match sscanfD c.metadata.resourceVersion with
      | some n => goItoa (n + 1)
      | none => "2"

/-- The subscriber count as the claims read it: the value of a count
record that exists and whose count string parses as an integer. -/
def specCount (counts : KVStore CountStored) (nodeId : String) : Option Int :=
  match etcdGet counts (countKey nodeId) with
  | some (CountStored.parsed d) => goAtoi d.subscriberCount
  | _ => none

/-- The user-id suffixes of the keys under the HSI range of a node. -/
def hsiSuffixes (hsi : KVStore HSIStored) (nodeId : String) : List String :=
  let pre := hsiRangeKey nodeId
  (rangeAsc hsi pre).filterMap (fun kv =>
    if pre.length < kv.1.length then some (dropStr kv.1 pre.length) else none)

/-- Claim C5 as stated: if a subscriber-count record exists and parses
as an integer n, every user-id parsing as an integer greater than n is
omitted and non-numeric user-ids are kept; with no such count all ids
are returned. -/
def specHSIUserIdsClaim (st : ConfigStores) (nodeId : String) : List String :=
  match specCount st.counts nodeId with
  | some n =>
      (hsiSuffixes st.hsi nodeId).filter (fun uid =>
        match goAtoi uid with
        | some u => decide (u ≤ n)
        | none => true)
  | none => hsiSuffixes st.hsi nodeId

/-- Claim C5 amended: the filter applies only when the stored count
parses as a nonnegative integer. -/
def specHSIUserIdsAmended (st : ConfigStores) (nodeId : String) : List String :=
  match specCount st.counts nodeId with
  | some n =>
      if 0 ≤ n then
        (hsiSuffixes st.hsi nodeId).filter (fun uid =>
          match goAtoi uid with
          | some u => decide (u ≤ n)
          | none => true)
      else hsiSuffixes st.hsi nodeId
  | none => hsiSuffixes st.hsi nodeId

/-- Claim C7 wording: missing header 401; failed verification 401;
revocation hit 401; revocation-store read error 500; only with all
three checks passed does the request proceed. -/
def authSpecC7 (tokenValid : String → Bool)
    (blRead : String → Except Unit (Option String)) (authHeader : String) :
    AuthOutcome :=
  if authHeader = "" then AuthOutcome.unauthorized "Missing Authorization header"
  else if tokenValid authHeader then
    match blRead ("token_blacklist/" ++ authHeader) with
    | Except.ok none => AuthOutcome.next
    | Except.ok (some _) => AuthOutcome.unauthorized "Token has been revoked"
    | Except.error _ => AuthOutcome.serverError "Authentication service unavailable"
  else AuthOutcome.unauthorized "Invalid token"

/-- Claim C8 as stated for the filtered read: exactly those parseable
events whose event_type field exactly matches the filter. -/
def specAllFailedEventsClaim (fe : KVStore FEStored) (filterTy : String) :
    List (Option String × String) :=
  (rangeDesc fe "failed_events_history/").filterMap (fun kv =>
    match kv.2 with
    | FEStored.malformed => none
    | FEStored.parsed et p =>
        if filterTy ≠ "" then
          if et = some filterTy then some (et, p) else none
        else some (et, p))

/-- Claim C8 amended: with a filter, an event is returned iff it decodes
and either its event_type field is the filter string or it has no string
event_type field at all. -/
def specAllFailedEventsAmended (fe : KVStore FEStored) (filterTy : String) :
    List (Option String × String) :=
  (rangeDesc fe "failed_events_history/").filterMap (fun kv =>
    match kv.2 with
    | FEStored.malformed => none
    | FEStored.parsed et p =>
        if filterTy ≠ "" then
          match et with
          | some t => if t = filterTy then some (et, p) else none
          | none => some (et, p)
        else some (et, p))

/-- The per-node history read as the claim words it: the decoded events
under the node range, newest first, unfiltered. -/
def specNodeFailedEvents (fe : KVStore FEStored) (nodeId : String) :
    List (Option String × String) :=
  (rangeDesc fe ("failed_events_history/" ++ nodeId ++ "/")).filterMap (fun kv =>
    match kv.2 with
    | FEStored.malformed => none
    | FEStored.parsed et p => some (et, p))

/-- Existence of a conflicting record as claim C4 words it: some record
under the HSI range of the node decodes with the same vlan id and a
different user id. -/
def hasVlanConflict (hsi : KVStore HSIStored) (nodeId vlanId userId : String) :
    Bool :=
  (rangeAsc hsi (hsiRangeKey nodeId)).any (fun kv =>
    match kv.2 with
    | HSIStored.parsed c => c.config.vlanId == vlanId && c.config.userId != userId
    | HSIStored.malformed => false)

/-- The resource version a stored decoded record carries, when the key
holds one. -/
def storedVersionAt (hsi : KVStore HSIStored) (k : String) : Option String :=
  match etcdGet hsi k with
  | some (HSIStored.parsed c) => some c.metadata.resourceVersion
  | _ => none

/-! ### Basic store lemmas -/

lemma etcdGet_etcdPut_self {α : Type} (st : KVStore α) (k : String) (v : α) :
    etcdGet (etcdPut st k v) k = some v := by
  induction st with
  | nil => simp [etcdPut, etcdGet]
  | cons kv rest ih =>
      by_cases h : kv.1 = k
      · simp [etcdPut, h, etcdGet]
      · simp [etcdPut, h, etcdGet, ih]

lemma mem_insertAsc {α : Type} (kv x : String × α) (l : KVStore α) :
    x ∈ insertAsc kv l ↔ x = kv ∨ x ∈ l := by
  induction l with
  | nil => simp [insertAsc]
  | cons h t ih =>
      by_cases hc : keyLe kv.1 h.1
      · simp [insertAsc, hc]
      · simp [insertAsc, hc, ih]
        tauto

lemma mem_sortAsc {α : Type} (x : String × α) (l : KVStore α) :
    x ∈ sortAsc l ↔ x ∈ l := by
  induction l with
  | nil => simp [sortAsc]
  | cons h t ih => simp [sortAsc, mem_insertAsc, ih]

lemma mem_rangeAsc {α : Type} (x : String × α) (st : KVStore α) (p : String) :
    x ∈ rangeAsc st p ↔ x ∈ st ∧ strIsPre p x.1 = true := by
  simp [rangeAsc, mem_sortAsc, underKey, List.mem_filter]

/-! ### Lemmas for the NIC counter accesses -/

lemma goIdx_ofNat {α : Type} (l : List α) (i : Nat) (h : i < l.length) :
    goIdx l (Int.ofNat i) = some l[i] := by
  simp [goIdx, List.getElem?_eq_getElem h]

lemma readFrom_spec (l : List PerUserStat) :
    ∀ (n i : Nat), i + n ≤ l.length →
      readFrom l i n = some ((l.drop i).take n) := by
  intro n
  induction n with
  | zero => intro i _; simp [readFrom]
  | succ k ih =>
      intro i h
      have hi : i < l.length := by omega
      have hrec := ih (i + 1) (by omega)
      simp only [readFrom, goIdx_ofNat l i hi, hrec, Option.map_some']
      rw [List.drop_eq_getElem_cons hi, List.take_succ_cons]

lemma nicAccess_of_ne_nil (stat : NicStat) (h : stat.perUserStats ≠ []) :
    nicAccess stat =
      some (stat.perUserStats.dropLast, stat.perUserStats.getLastD default) := by
  have hlen : 1 ≤ stat.perUserStats.length := by
    cases hs : stat.perUserStats with
    | nil => exact absurd hs h
    | cons a t => simp
  have h1 : readFrom stat.perUserStats 0 (stat.perUserStats.length - 1) =
      some (stat.perUserStats.take (stat.perUserStats.length - 1)) := by
    have := readFrom_spec stat.perUserStats (stat.perUserStats.length - 1) 0 (by omega)
    simpa using this
  have h2 : goIdx stat.perUserStats ((stat.perUserStats.length : Int) - 1) =
      some (stat.perUserStats.getLastD default) := by
    have hnn : ¬ ((stat.perUserStats.length : Int) - 1 < 0) := by omega
    have htn : ((stat.perUserStats.length : Int) - 1).toNat =
        stat.perUserStats.length - 1 := by omega
    rw [goIdx, if_neg hnn, htn, ← List.getLast?_eq_getElem?]
    cases hq : stat.perUserStats.getLast? with
    | none => exact absurd (List.getLast?_eq_none_iff.mp hq) h
    | some y => simp [List.getLastD_eq_getLast?, hq]
  rw [nicAccess, h1, h2, List.dropLast_eq_take]

/-! ### Key-order lemmas for the descending range read -/

lemma lexLe_total : ∀ a b : List Char, lexLe a b = true ∨ lexLe b a = true := by
  intro a
  induction a with
  | nil => intro b; left; simp [lexLe]
  | cons c cs ih =>
      intro b
      cases b with
      | nil => right; simp [lexLe]
      | cons d ds =>
          by_cases h1 : c.toNat < d.toNat
          · left; simp [lexLe, h1]
          · by_cases h2 : d.toNat < c.toNat
            · right; simp [lexLe, h1, h2]
            · cases ih ds with
              | inl hl => left; simp [lexLe, h1, h2, hl]
              | inr hr => right; simp [lexLe, h1, h2, hr]

lemma lexLe_trans : ∀ a b c : List Char,
    lexLe a b = true → lexLe b c = true → lexLe a c = true := by
  intro a
  induction a with
  | nil => intro b c _ _; simp [lexLe]
  | cons x xs ih =>
      intro b c hab hbc
      cases b with
      | nil => simp [lexLe] at hab
      | cons y ys =>
          cases c with
          | nil => simp [lexLe] at hbc
          | cons z zs =>
              by_cases h1 : x.toNat < y.toNat
              · by_cases h2 : y.toNat < z.toNat
                · simp [lexLe, show x.toNat < z.toNat by omega]
                · by_cases h3 : z.toNat < y.toNat
                  · simp [lexLe, h2, h3] at hbc
                  · simp [lexLe, show x.toNat < z.toNat by omega]
              · by_cases h4 : y.toNat < x.toNat
                · simp [lexLe, h1, h4] at hab
                · by_cases h2 : y.toNat < z.toNat
                  · simp [lexLe, show x.toNat < z.toNat by omega]
                  · by_cases h3 : z.toNat < y.toNat
                    · simp [lexLe, h2, h3] at hbc
                    · have hxz1 : ¬ x.toNat < z.toNat := by omega
                      have hxz2 : ¬ z.toNat < x.toNat := by omega
                      simp [lexLe, h1, h4] at hab
                      simp [lexLe, h2, h3] at hbc
                      simp [lexLe, hxz1, hxz2, ih ys zs hab hbc]

lemma keyLe_total (a b : String) : keyLe a b = true ∨ keyLe b a = true :=
  lexLe_total a.toList b.toList

lemma keyLe_trans {a b c : String} (h1 : keyLe a b = true)
    (h2 : keyLe b c = true) : keyLe a c = true :=
  lexLe_trans a.toList b.toList c.toList h1 h2

lemma mem_insertDesc {α : Type} (kv x : String × α) (l : KVStore α) :
    x ∈ insertDesc kv l ↔ x = kv ∨ x ∈ l := by
  induction l with
  | nil => simp [insertDesc]
  | cons h t ih =>
      by_cases hc : keyLe h.1 kv.1
      · simp [insertDesc, hc]
      · simp [insertDesc, hc, ih]
        tauto

lemma pairwise_insertDesc {α : Type} (kv : String × α) (l : KVStore α)
    (h : l.Pairwise (fun a b => keyLe b.1 a.1 = true)) :
    (insertDesc kv l).Pairwise (fun a b => keyLe b.1 a.1 = true) := by
  induction l with
  | nil => simp [insertDesc]
  | cons hd t ih =>
      rcases List.pairwise_cons.mp h with ⟨hhd, ht⟩
      by_cases hc : keyLe hd.1 kv.1
      · rw [insertDesc, if_pos hc]
        refine List.pairwise_cons.mpr ⟨?_, h⟩
        intro y hy
        rcases List.mem_cons.mp hy with rfl | hyt
        · exact hc
        · exact keyLe_trans (hhd y hyt) hc
      · rw [insertDesc, if_neg hc]
        refine List.pairwise_cons.mpr ⟨?_, ih ht⟩
        intro y hy
        rcases (mem_insertDesc kv y t).mp hy with rfl | hyt
        · cases keyLe_total y.1 hd.1 with
          | inl hl => exact hl
          | inr hr => exact absurd hr hc
        · exact hhd y hyt

lemma pairwise_sortDesc {α : Type} (l : KVStore α) :
    (sortDesc l).Pairwise (fun a b => keyLe b.1 a.1 = true) := by
  induction l with
  | nil => simp [sortDesc]
  | cons h t ih => exact pairwise_insertDesc h (sortDesc t) ih

lemma pairwise_rangeDesc {α : Type} (st : KVStore α) (p : String) :
    (rangeDesc st p).Pairwise (fun a b => keyLe b.1 a.1 = true) :=
  pairwise_sortDesc (underKey p st)

/-! ### Lemmas about the vlan scan and the subscriber count -/

lemma sscanfD_empty : sscanfD "" = none := rfl

lemma vlanScan_fst_eq_any (kvs : KVStore HSIStored) (v u : String) :
    (vlanScan kvs v u).1 = kvs.any (fun kv =>
      match kv.2 with
      | HSIStored.parsed c => c.config.vlanId == v && c.config.userId != u
      | HSIStored.malformed => false) := by
  induction kvs with
  | nil => simp [vlanScan]
  | cons kv rest ih =>
      obtain ⟨k, val⟩ := kv
      cases val with
      | malformed => simpa [vlanScan] using ih
      | parsed c =>
          by_cases hc : c.config.vlanId = v ∧ c.config.userId ≠ u
          · simp [vlanScan, hc, List.any_cons, hc.1, hc.2]
          · rw [Decidable.not_and_iff_or_not] at hc
            cases hc with
            | inl h1 => simp [vlanScan, h1, List.any_cons, ih]
            | inr h2 =>
                rw [Decidable.not_not] at h2
                simp [vlanScan, h2, List.any_cons, ih]

lemma hasVlanConflict_eq_isVlanInUse (hsi : KVStore HSIStored)
    (nodeId v u : String) :
    hasVlanConflict hsi nodeId v u = (isVlanInUse hsi nodeId v u).1 := by
  rw [hasVlanConflict, isVlanInUse, vlanScan_fst_eq_any]

lemma vlanScan_true_names_member (kvs : KVStore HSIStored) (v u : String)
    (h : (vlanScan kvs v u).1 = true) :
    ∃ k c, (k, HSIStored.parsed c) ∈ kvs ∧ c.config.vlanId = v ∧
      c.config.userId ≠ u ∧ (vlanScan kvs v u).2 = c.config.userId := by
  induction kvs with
  | nil => simp [vlanScan] at h
  | cons kv rest ih =>
      obtain ⟨k, val⟩ := kv
      cases val with
      | malformed =>
          rw [vlanScan] at h
          obtain ⟨k2, c2, hm, hr⟩ := ih h
          exact ⟨k2, c2, List.mem_cons_of_mem _ hm, by rw [vlanScan]; exact hr⟩
      | parsed c =>
          by_cases hc : c.config.vlanId = v ∧ c.config.userId ≠ u
          · refine ⟨k, c, List.mem_cons_self _ _, hc.1, hc.2, ?_⟩
            rw [vlanScan, if_pos hc]
          · rw [vlanScan, if_neg hc] at h
            obtain ⟨k2, c2, hm, hr⟩ := ih h
            refine ⟨k2, c2, List.mem_cons_of_mem _ hm, hr.1, hr.2.1, ?_⟩
            rw [vlanScan, if_neg hc]
            exact hr.2.2

lemma getSubscriberCount_eq_specCount (counts : KVStore CountStored)
    (nodeId : String) :
    getSubscriberCount counts nodeId = (specCount counts nodeId).getD (-1) := by
  rw [getSubscriberCount, specCount]
  cases etcdGet counts (countKey nodeId) with
  | none => rfl
  | some val =>
      cases val with
      | malformed => rfl
      | parsed d =>
          cases hg : goAtoi d.subscriberCount with
          | none => simp [hg]
          | some n => simp [hg]

/-! ### Success-path evaluations of the HSI write handlers -/

lemma createHSIConfig_success (st : ConfigStores) (nodeId : String)
    (cfg : HSIConfig) (u now : String) (hn : nodeId ≠ "")
    (hf : hsiFieldCheck cfg = none)
    (hs : scFilterHit (getSubscriberCount st.counts nodeId) cfg.userId = false)
    (hv : (isVlanInUse st.hsi nodeId cfg.vlanId cfg.userId).1 = false) :
    createHSIConfig st nodeId cfg (some u) now =
      ⟨200, "HSI config created successfully",
       ⟨etcdPut st.hsi (hsiKey nodeId cfg.userId)
          (HSIStored.parsed ⟨cfg,
            ⟨nodeId, getNextResourceVersion st.hsi (hsiKey nodeId cfg.userId),
             u, now, "disabled"⟩⟩),
        st.counts⟩⟩ := by
  simp [createHSIConfig, hn, hf, hs, hv]

lemma updateHSIConfig_success (st : ConfigStores) (nodeId userId : String)
    (cfg : HSIConfig) (u now es : String) (hn : nodeId ≠ "") (hu : userId ≠ "")
    (hf : hsiFieldCheck cfg = none) (hm : cfg.userId = userId)
    (hs : scFilterHit (getSubscriberCount st.counts nodeId) cfg.userId = false)
    (hv : (isVlanInUse st.hsi nodeId cfg.vlanId userId).1 = false)
    (he : isHSIConfigEnabled st.hsi nodeId userId = Except.ok es) :
    updateHSIConfig st nodeId userId cfg (some u) now =
      ⟨200, "HSI config updated successfully",
       ⟨etcdPut st.hsi (hsiKey nodeId userId)
          (HSIStored.parsed ⟨cfg,
            ⟨nodeId, getNextResourceVersion st.hsi (hsiKey nodeId userId),
             u, now, es⟩⟩),
        st.counts⟩⟩ := by
  subst hm
  simp [updateHSIConfig, hn, hu, hf, hs, hv, he]

/-- The computed next version agrees with the wording of claim C3. -/
lemma nextVersion_eq_spec (hsi : KVStore HSIStored) (k : String) :
    getNextResourceVersion hsi k = specNextResourceVersion hsi k := by
  cases hq : etcdGet hsi k with
  | none => simp [getNextResourceVersion, specNextResourceVersion, hq]
  | some val =>
      cases val with
      | malformed => simp [getNextResourceVersion, specNextResourceVersion, hq]
      | parsed c =>
          by_cases hv : c.metadata.resourceVersion = ""
          · simp [getNextResourceVersion, specNextResourceVersion, hq, hv,
                  sscanfD_empty]
          · simp only [getNextResourceVersion, specNextResourceVersion, hq,
                       if_neg hv]
            cases hs2 : sscanfD c.metadata.resourceVersion with
            | none => simp [hs2]
            | some n => simp [hs2]

/-! ### Claim theorems -/

/-- Claim C3: an HSI write to configs/nodeId/hsi/userId stores resource
version "1" when no record exists at the key, the decimal successor of
the existing parsed version otherwise, and "2" when the existing value
or its version field is unparseable, an empty version string included.
The first conjunct characterizes the computed next version on every
store; the other two show a successful create and a successful update
store exactly that version. -/
theorem c3_resource_version :
    (∀ (hsi : KVStore HSIStored) (k : String),
      getNextResourceVersion hsi k = specNextResourceVersion hsi k) ∧
    (∀ (st : ConfigStores) (nodeId : String) (cfg : HSIConfig) (u now : String),
      nodeId ≠ "" → hsiFieldCheck cfg = none →
      scFilterHit (getSubscriberCount st.counts nodeId) cfg.userId = false →
      (isVlanInUse st.hsi nodeId cfg.vlanId cfg.userId).1 = false →
      storedVersionAt (createHSIConfig st nodeId cfg (some u) now).stores.hsi
          (hsiKey nodeId cfg.userId) =
        some (specNextResourceVersion st.hsi (hsiKey nodeId cfg.userId))) ∧
    (∀ (st : ConfigStores) (nodeId userId : String) (cfg : HSIConfig)
        (u now es : String),
      nodeId ≠ "" → userId ≠ "" → hsiFieldCheck cfg = none →
      cfg.userId = userId →
      scFilterHit (getSubscriberCount st.counts nodeId) cfg.userId = false →
      (isVlanInUse st.hsi nodeId cfg.vlanId userId).1 = false →
      isHSIConfigEnabled st.hsi nodeId userId = Except.ok es →
      storedVersionAt (updateHSIConfig st nodeId userId cfg (some u) now).stores.hsi
          (hsiKey nodeId userId) =
        some (specNextResourceVersion st.hsi (hsiKey nodeId userId))) := by
  refine ⟨nextVersion_eq_spec, ?_, ?_⟩
  · intro st nodeId cfg u now hn hf hs hv
    rw [createHSIConfig_success st nodeId cfg u now hn hf hs hv]
    rw [storedVersionAt, etcdGet_etcdPut_self, nextVersion_eq_spec]
  · intro st nodeId userId cfg u now es hn hu hf hm hs hv he
    rw [updateHSIConfig_success st nodeId userId cfg u now es hn hu hf hm hs hv he]
    rw [storedVersionAt, etcdGet_etcdPut_self, nextVersion_eq_spec]

/-- A well-formed HSI request body used by the witnesses. -/
def wCfg : HSIConfig :=
  ⟨"5", "100", "a", "p", "192.168.3.100-192.168.3.200", "255.255.255.0",
   "192.168.3.1"⟩

/-- Empty stores used by the witnesses. -/
def wEmpty : ConfigStores := ⟨[], []⟩

/-- Stores holding one decoded HSI record for node n1, user 5, at
version "3", used by the witnesses. -/
def wStoresU : ConfigStores :=
  ⟨[(hsiKey "n1" "5",
     HSIStored.parsed ⟨wCfg, ⟨"n1", "3", "admin", "t0", "enabled"⟩⟩)], []⟩

/-- Claim C3 witness: the create and update conjuncts applied at
concrete inputs with every hypothesis discharged. -/
theorem c3_resource_version_witness :
    (("n1" : String) ≠ "" ∧ hsiFieldCheck wCfg = none ∧
     scFilterHit (getSubscriberCount wEmpty.counts "n1") wCfg.userId = false ∧
     (isVlanInUse wEmpty.hsi "n1" wCfg.vlanId wCfg.userId).1 = false ∧
     storedVersionAt (createHSIConfig wEmpty "n1" wCfg (some "admin") "t1").stores.hsi
         (hsiKey "n1" wCfg.userId) =
       some (specNextResourceVersion wEmpty.hsi (hsiKey "n1" wCfg.userId))) ∧
    (("5" : String) ≠ "" ∧ wCfg.userId = "5" ∧
     isHSIConfigEnabled wStoresU.hsi "n1" "5" = Except.ok "enabled" ∧
     storedVersionAt (updateHSIConfig wStoresU "n1" "5" wCfg (some "admin") "t2").stores.hsi
         (hsiKey "n1" "5") =
       some (specNextResourceVersion wStoresU.hsi (hsiKey "n1" "5"))) :=
  ⟨⟨by decide, by decide, by decide, by decide,
    c3_resource_version.2.1 wEmpty "n1" wCfg "admin" "t1" (by decide) (by decide)
      (by decide) (by decide)⟩,
   ⟨by decide, by decide, by rfl,
    c3_resource_version.2.2 wStoresU "n1" "5" wCfg "admin" "t2" "enabled"
      (by decide) (by decide) (by decide) (by decide) (by decide) (by decide)
      (by rfl)⟩⟩

/-- Claim C7: the auth middleware answers 401 on a missing header, 401
on failed verification, 401 on a revocation hit, 500 on a revocation
store error, and lets the request proceed only when all three checks
pass. -/
theorem c7_auth_middleware (tokenValid : String → Bool)
    (blRead : String → Except Unit (Option String)) (authHeader : String) :
    authMiddlewareWithBlacklist tokenValid blRead authHeader =
      authSpecC7 tokenValid blRead authHeader := by
  rw [authMiddlewareWithBlacklist, authSpecC7]
  by_cases h1 : authHeader = ""
  · simp [h1]
  · by_cases h2 : tokenValid authHeader
    · simp only [if_neg h1, h2, not_true_eq_false, if_false, if_true]
      cases blRead ("token_blacklist/" ++ authHeader) with
      | error e => rfl
      | ok v => cases v with
        | none => rfl
        | some s => rfl
    · simp [h1, h2]

/-- Claim C10: a GET of an HSI record whose store read succeeds but
finds no record answers 500 with body "HSI config not found", and the
stores are unchanged. -/
theorem c10_get_missing_500 (st : ConfigStores) (nodeId userId : String)
    (hn : nodeId ≠ "") (hu : userId ≠ "")
    (hs : scFilterHit (getSubscriberCount st.counts nodeId) userId = false)
    (hm : etcdGet st.hsi (hsiKey nodeId userId) = none) :
    getHSIConfig st nodeId userId = ⟨500, "HSI config not found", st⟩ := by
  simp [getHSIConfig, hn, hu, hs, hm]

/-- Claim C10 witness at concrete empty stores. -/
theorem c10_get_missing_500_witness :
    ("n1" : String) ≠ "" ∧ ("5" : String) ≠ "" ∧
    scFilterHit (getSubscriberCount wEmpty.counts "n1") "5" = false ∧
    etcdGet wEmpty.hsi (hsiKey "n1" "5") = none ∧
    getHSIConfig wEmpty "n1" "5" = ⟨500, "HSI config not found", wEmpty⟩ :=
  ⟨by decide, by decide, by decide, by decide,
   c10_get_missing_500 wEmpty "n1" "5" (by decide) (by decide) (by decide)
     (by decide)⟩

lemma createHSIConfig_conflict (st : ConfigStores) (nodeId : String)
    (cfg : HSIConfig) (u : Option String) (now : String) (hn : nodeId ≠ "")
    (hf : hsiFieldCheck cfg = none)
    (hs : scFilterHit (getSubscriberCount st.counts nodeId) cfg.userId = false)
    (hv : (isVlanInUse st.hsi nodeId cfg.vlanId cfg.userId).1 = true) :
    createHSIConfig st nodeId cfg u now =
      ⟨409, "Input VLAN has been already used by other user: " ++
            (isVlanInUse st.hsi nodeId cfg.vlanId cfg.userId).2, st⟩ := by
  simp [createHSIConfig, hn, hf, hs, hv]

lemma updateHSIConfig_conflict (st : ConfigStores) (nodeId userId : String)
    (cfg : HSIConfig) (u : Option String) (now : String) (hn : nodeId ≠ "")
    (hu : userId ≠ "") (hf : hsiFieldCheck cfg = none) (hm : cfg.userId = userId)
    (hs : scFilterHit (getSubscriberCount st.counts nodeId) cfg.userId = false)
    (hv : (isVlanInUse st.hsi nodeId cfg.vlanId userId).1 = true) :
    updateHSIConfig st nodeId userId cfg u now =
      ⟨409, "Input VLAN has been already used by other user: " ++
            (isVlanInUse st.hsi nodeId cfg.vlanId userId).2, st⟩ := by
  subst hm
  simp [updateHSIConfig, hn, hu, hf, hs, hv]

/-- A conflicting record in the store names some same-vlan other-user
record in the 409 message. -/
lemma isVlanInUse_names_member (hsi : KVStore HSIStored) (nodeId v u : String)
    (h : (isVlanInUse hsi nodeId v u).1 = true) :
    ∃ k c, (k, HSIStored.parsed c) ∈ hsi ∧
      strIsPre (hsiRangeKey nodeId) k = true ∧ c.config.vlanId = v ∧
      c.config.userId ≠ u ∧ (isVlanInUse hsi nodeId v u).2 = c.config.userId := by
  obtain ⟨k, c, hm, hv, hu2, hr⟩ :=
    vlanScan_true_names_member (rangeAsc hsi (hsiRangeKey nodeId)) v u h
  rcases (mem_rangeAsc _ hsi (hsiRangeKey nodeId)).mp hm with ⟨hmem, hpre⟩
  exact ⟨k, c, hmem, hpre, hv, hu2, hr⟩

/-- Claim C4: an HSI create or update fails with 409 naming the
offending user when some decoded record under configs/nodeId/hsi/
carries the requested vlan id under a different user id, and proceeds to
the write when no such record exists and the earlier validations
passed.  The four scenario groups are: create into a conflict, create
without conflict, update into a conflict, update without conflict. -/
theorem c4_vlan_conflict
    (stA stB stC stD : ConfigStores) (nodeA nodeB nodeC nodeD : String)
    (cfgA cfgB cfgC cfgD : HSIConfig) (uA uC : Option String)
    (uB uD : String) (nowA nowB nowC nowD : String) (userC userD : String)
    (esD : String)
    (hnA : nodeA ≠ "") (hfA : hsiFieldCheck cfgA = none)
    (hsA : scFilterHit (getSubscriberCount stA.counts nodeA) cfgA.userId = false)
    (hcA : hasVlanConflict stA.hsi nodeA cfgA.vlanId cfgA.userId = true)
    (hnB : nodeB ≠ "") (hfB : hsiFieldCheck cfgB = none)
    (hsB : scFilterHit (getSubscriberCount stB.counts nodeB) cfgB.userId = false)
    (hcB : hasVlanConflict stB.hsi nodeB cfgB.vlanId cfgB.userId = false)
    (hnC : nodeC ≠ "") (huC : userC ≠ "") (hfC : hsiFieldCheck cfgC = none)
    (hmC : cfgC.userId = userC)
    (hsC : scFilterHit (getSubscriberCount stC.counts nodeC) cfgC.userId = false)
    (hcC : hasVlanConflict stC.hsi nodeC cfgC.vlanId userC = true)
    (hnD : nodeD ≠ "") (huD : userD ≠ "") (hfD : hsiFieldCheck cfgD = none)
    (hmD : cfgD.userId = userD)
    (hsD : scFilterHit (getSubscriberCount stD.counts nodeD) cfgD.userId = false)
    (hcD : hasVlanConflict stD.hsi nodeD cfgD.vlanId userD = false)
    (heD : isHSIConfigEnabled stD.hsi nodeD userD = Except.ok esD) :
    ((createHSIConfig stA nodeA cfgA uA nowA).status = 409 ∧
     (createHSIConfig stA nodeA cfgA uA nowA).stores = stA ∧
     ∃ k c, (k, HSIStored.parsed c) ∈ stA.hsi ∧
       strIsPre (hsiRangeKey nodeA) k = true ∧ c.config.vlanId = cfgA.vlanId ∧
       c.config.userId ≠ cfgA.userId ∧
       (createHSIConfig stA nodeA cfgA uA nowA).body =
         "Input VLAN has been already used by other user: " ++ c.config.userId) ∧
    ((createHSIConfig stB nodeB cfgB (some uB) nowB).status = 200 ∧
     (createHSIConfig stB nodeB cfgB (some uB) nowB).stores.hsi =
       etcdPut stB.hsi (hsiKey nodeB cfgB.userId)
         (HSIStored.parsed ⟨cfgB,
           ⟨nodeB, getNextResourceVersion stB.hsi (hsiKey nodeB cfgB.userId),
            uB, nowB, "disabled"⟩⟩)) ∧
    ((updateHSIConfig stC nodeC userC cfgC uC nowC).status = 409 ∧
     (updateHSIConfig stC nodeC userC cfgC uC nowC).stores = stC ∧
     ∃ k c, (k, HSIStored.parsed c) ∈ stC.hsi ∧
       strIsPre (hsiRangeKey nodeC) k = true ∧ c.config.vlanId = cfgC.vlanId ∧
       c.config.userId ≠ userC ∧
       (updateHSIConfig stC nodeC userC cfgC uC nowC).body =
         "Input VLAN has been already used by other user: " ++ c.config.userId) ∧
    ((updateHSIConfig stD nodeD userD cfgD (some uD) nowD).status = 200 ∧
     (updateHSIConfig stD nodeD userD cfgD (some uD) nowD).stores.hsi =
       etcdPut stD.hsi (hsiKey nodeD userD)
         (HSIStored.parsed ⟨cfgD,
           ⟨nodeD, getNextResourceVersion stD.hsi (hsiKey nodeD userD),
            uD, nowD, esD⟩⟩)) := by
  rw [hasVlanConflict_eq_isVlanInUse] at hcA hcB hcC hcD
  refine ⟨?_, ?_, ?_, ?_⟩
  · rw [createHSIConfig_conflict stA nodeA cfgA uA nowA hnA hfA hsA hcA]
    obtain ⟨k, c, hmem, hpre, hv, hu2, hr⟩ :=
      isVlanInUse_names_member stA.hsi nodeA cfgA.vlanId cfgA.userId hcA
    exact ⟨rfl, rfl, k, c, hmem, hpre, hv, hu2, by rw [hr]⟩
  · rw [createHSIConfig_success stB nodeB cfgB uB nowB hnB hfB hsB hcB]
    exact ⟨rfl, rfl⟩
  · rw [updateHSIConfig_conflict stC nodeC userC cfgC uC nowC hnC huC hfC hmC hsC hcC]
    obtain ⟨k, c, hmem, hpre, hv, hu2, hr⟩ :=
      isVlanInUse_names_member stC.hsi nodeC cfgC.vlanId userC hcC
    exact ⟨rfl, rfl, k, c, hmem, hpre, hv, hu2, by rw [hr]⟩
  · rw [updateHSIConfig_success stD nodeD userD cfgD uD nowD esD hnD huD hfD hmD
        hsD hcD heD]
    exact ⟨rfl, rfl⟩

/-- A record of a second user holding vlan 100 on node n1, used by the
C4 witness as the conflicting occupant. -/
def wConflictCfg : HSIConfig :=
  ⟨"1", "100", "b", "q", "192.168.4.100-192.168.4.200", "255.255.255.0",
   "192.168.4.1"⟩

/-- Stores where user 1 already holds vlan 100 on node n1. -/
def wConflictStores : ConfigStores :=
  ⟨[(hsiKey "n1" "1",
     HSIStored.parsed ⟨wConflictCfg, ⟨"n1", "1", "admin", "t0", "disabled"⟩⟩)], []⟩

/-- Claim C4 witness: concrete conflict and no-conflict scenarios with
every hypothesis discharged. -/
theorem c4_vlan_conflict_witness :
    hasVlanConflict wConflictStores.hsi "n1" wCfg.vlanId wCfg.userId = true ∧
    hasVlanConflict wEmpty.hsi "n1" wCfg.vlanId wCfg.userId = false ∧
    hasVlanConflict wConflictStores.hsi "n1" wCfg.vlanId "5" = true ∧
    hasVlanConflict wStoresU.hsi "n1" wCfg.vlanId "5" = false ∧
    (createHSIConfig wConflictStores "n1" wCfg (some "admin") "t1").status = 409 ∧
    (createHSIConfig wEmpty "n1" wCfg (some "admin") "t1").status = 200 ∧
    (updateHSIConfig wConflictStores "n1" "5" wCfg (some "admin") "t1").status = 409 ∧
    (updateHSIConfig wStoresU "n1" "5" wCfg (some "admin") "t1").status = 200 := by
  have h := c4_vlan_conflict wConflictStores wEmpty wConflictStores wStoresU
    "n1" "n1" "n1" "n1" wCfg wCfg wCfg wCfg (some "admin") (some "admin")
    "admin" "admin" "t1" "t1" "t1" "t1" "5" "5" "enabled"
    (by decide) (by decide) (by decide) (by decide)
    (by decide) (by decide) (by decide) (by decide)
    (by decide) (by decide) (by decide) (by decide) (by decide) (by decide)
    (by decide) (by decide) (by decide) (by decide) (by decide) (by decide)
    (by rfl)
  exact ⟨by decide, by decide, by decide, by decide,
         h.1.1, h.2.1.1, h.2.2.1.1, h.2.2.2.1⟩

/-- Claim C6: a successful update of an existing decoded record whose
version parses as n stores the prior enable status unchanged and version
n plus one; a successful create with no prior record stores enable
status disabled (at version "1"). -/
theorem c6_update_preserves :
    (∀ (st : ConfigStores) (nodeId userId : String) (cfg : HSIConfig)
        (u now : String) (c : HSIConfigWithMetadata) (n : Int),
      nodeId ≠ "" → userId ≠ "" → hsiFieldCheck cfg = none →
      cfg.userId = userId →
      scFilterHit (getSubscriberCount st.counts nodeId) cfg.userId = false →
      (isVlanInUse st.hsi nodeId cfg.vlanId userId).1 = false →
      etcdGet st.hsi (hsiKey nodeId userId) = some (HSIStored.parsed c) →
      sscanfD c.metadata.resourceVersion = some n →
      (updateHSIConfig st nodeId userId cfg (some u) now).status = 200 ∧
      etcdGet (updateHSIConfig st nodeId userId cfg (some u) now).stores.hsi
          (hsiKey nodeId userId) =
        some (HSIStored.parsed ⟨cfg,
          ⟨nodeId, goItoa (n + 1), u, now, c.metadata.enableStatus⟩⟩)) ∧
    (∀ (st : ConfigStores) (nodeId : String) (cfg : HSIConfig) (u now : String),
      nodeId ≠ "" → hsiFieldCheck cfg = none →
      scFilterHit (getSubscriberCount st.counts nodeId) cfg.userId = false →
      (isVlanInUse st.hsi nodeId cfg.vlanId cfg.userId).1 = false →
      etcdGet st.hsi (hsiKey nodeId cfg.userId) = none →
      (createHSIConfig st nodeId cfg (some u) now).status = 200 ∧
      etcdGet (createHSIConfig st nodeId cfg (some u) now).stores.hsi
          (hsiKey nodeId cfg.userId) =
        some (HSIStored.parsed ⟨cfg, ⟨nodeId, "1", u, now, "disabled"⟩⟩)) := by
  constructor
  · intro st nodeId userId cfg u now c n hn hu hf hm hs hv hp hs2
    have he : isHSIConfigEnabled st.hsi nodeId userId =
        Except.ok c.metadata.enableStatus := by
      rw [isHSIConfigEnabled, hp]
    have hvne : c.metadata.resourceVersion ≠ "" := by
      intro h0
      rw [h0, sscanfD_empty] at hs2
      exact Option.noConfusion hs2
    have hrv : getNextResourceVersion st.hsi (hsiKey nodeId userId) =
        goItoa (n + 1) := by
      rw [getNextResourceVersion, hp]
      simp [hvne, hs2]
    rw [updateHSIConfig_success st nodeId userId cfg u now
        c.metadata.enableStatus hn hu hf hm hs hv he]
    exact ⟨rfl, by rw [etcdGet_etcdPut_self, hrv]⟩
  · intro st nodeId cfg u now hn hf hs hv hp
    have hrv : getNextResourceVersion st.hsi (hsiKey nodeId cfg.userId) = "1" := by
      rw [getNextResourceVersion, hp]
    rw [createHSIConfig_success st nodeId cfg u now hn hf hs hv]
    exact ⟨rfl, by rw [etcdGet_etcdPut_self, hrv]⟩

/-- Claim C6 witness: one concrete successful update (version "3" to
"4", enable status kept) and one concrete successful create. -/
theorem c6_update_preserves_witness :
    (etcdGet wStoresU.hsi (hsiKey "n1" "5") =
       some (HSIStored.parsed ⟨wCfg, ⟨"n1", "3", "admin", "t0", "enabled"⟩⟩) ∧
     sscanfD "3" = some 3 ∧
     (updateHSIConfig wStoresU "n1" "5" wCfg (some "op") "t3").status = 200 ∧
     etcdGet (updateHSIConfig wStoresU "n1" "5" wCfg (some "op") "t3").stores.hsi
         (hsiKey "n1" "5") =
       some (HSIStored.parsed ⟨wCfg, ⟨"n1", goItoa (3 + 1), "op", "t3",
         (HSIMetadata.mk "n1" "3" "admin" "t0" "enabled").enableStatus⟩⟩)) ∧
    (etcdGet wEmpty.hsi (hsiKey "n1" "5") = none ∧
     (createHSIConfig wEmpty "n1" wCfg (some "op") "t4").status = 200 ∧
     etcdGet (createHSIConfig wEmpty "n1" wCfg (some "op") "t4").stores.hsi
         (hsiKey "n1" "5") =
       some (HSIStored.parsed ⟨wCfg, ⟨"n1", "1", "op", "t4", "disabled"⟩⟩)) := by
  have h1 := c6_update_preserves.1 wStoresU "n1" "5" wCfg "op" "t3"
    ⟨wCfg, ⟨"n1", "3", "admin", "t0", "enabled"⟩⟩ 3
    (by decide) (by decide) (by decide) (by decide) (by decide) (by decide)
    (by decide) (by decide)
  have h2 := c6_update_preserves.2 wEmpty "n1" wCfg "op" "t4"
    (by decide) (by decide) (by decide) (by decide) (by decide)
  exact ⟨⟨by decide, by decide, h1.1, h1.2⟩, ⟨by decide, h2.1, h2.2⟩⟩

/-- The single filterMap of the user id listing splits into the suffix
listing followed by the numeric cap filter exactly when the cap is
nonnegative. -/
lemma userIds_filterMap (pre : String) (kvs : KVStore HSIStored) (sc : Int) :
    kvs.filterMap (fun kv =>
      if pre.length < kv.1.length then
        let userId := dropStr kv.1 pre.length
        if 0 ≤ sc then
          match goAtoi userId with
          | some u => if sc < u then none else some userId
          | none => some userId
        else some userId
      else none) =
    (if 0 ≤ sc then
      (kvs.filterMap (fun kv =>
        if pre.length < kv.1.length then some (dropStr kv.1 pre.length)
        else none)).filter
        (fun uid =>
          match goAtoi uid with
          | some u => decide (u ≤ sc)
          | none => true)
    else kvs.filterMap (fun kv =>
      if pre.length < kv.1.length then some (dropStr kv.1 pre.length)
      else none)) := by
  by_cases hsc : 0 ≤ sc
  · rw [if_pos hsc, List.filter_filterMap]
    apply List.filterMap_congr
    intro kv _
    by_cases hl : pre.length < kv.1.length
    · simp only [if_pos hl, hsc, if_true]
      cases hgA : goAtoi (dropStr kv.1 pre.length) with
      | none => simp [hgA, Option.filter]
      | some u =>
          by_cases hu : u ≤ sc
          · simp [hgA, Option.filter, hu, show ¬ sc < u by omega]
          · simp [hgA, Option.filter, hu, show sc < u by omega]
    · simp [hl, Option.filter]
  · rw [if_neg hsc]
    apply List.filterMap_congr
    intro kv _
    by_cases hl : pre.length < kv.1.length
    · simp [hl, hsc]
    · simp [hl]

/-- Claim C5 amended: the listing filters numeric user ids above the
subscriber count only when the stored count parses as a nonnegative
integer; a negative parsed count, like a missing or unparseable one,
leaves the listing unfiltered. -/
theorem c5_user_ids (st : ConfigStores) (nodeId : String) (h : nodeId ≠ "") :
    getHSIUserIds st nodeId =
      UserIdsResult.ok (specHSIUserIdsAmended st nodeId) := by
  rw [getHSIUserIds, if_neg h]
  simp only []
  rw [userIds_filterMap (hsiRangeKey nodeId) (rangeAsc st.hsi (hsiRangeKey nodeId))
      (getSubscriberCount st.counts nodeId),
      getSubscriberCount_eq_specCount, specHSIUserIdsAmended]
  cases hq : specCount st.counts nodeId with
  | none => simp [hsiSuffixes, show ¬ (0 : Int) ≤ -1 by norm_num]
  | some n =>
      by_cases hn0 : 0 ≤ n
      · simp [hsiSuffixes, hn0]
      · simp [hsiSuffixes, hn0]

/-- Stores whose subscriber count record parses as the negative integer
-1 while one HSI record exists for user 5, used against claim C5. -/
def c5CexStores : ConfigStores :=
  ⟨[(hsiKey "n1" "5",
     HSIStored.parsed ⟨wCfg, ⟨"n1", "1", "admin", "t0", "disabled"⟩⟩)],
   [(countKey "n1", CountStored.parsed ⟨⟨"n1", "1", "t0", "admin"⟩, "-1"⟩)]⟩

/-- Claim C5 counterexample: with a stored count parsing as -1, the
handler returns user id 5 unfiltered, while the claim as stated demands
every numeric id above -1 be omitted. -/
theorem c5_counterexample :
    getHSIUserIds c5CexStores "n1" ≠
      UserIdsResult.ok (specHSIUserIdsClaim c5CexStores "n1") := by decide

/-- Claim C5 witness: the amended equation applied at the concrete
stores of the counterexample. -/
theorem c5_user_ids_witness :
    ("n1" : String) ≠ "" ∧
    getHSIUserIds c5CexStores "n1" =
      UserIdsResult.ok (specHSIUserIdsAmended c5CexStores "n1") :=
  ⟨by decide, c5_user_ids c5CexStores "n1" (by decide)⟩

/-- A registry state holding one registered node n1 with an active
monitor. -/
def c1CexState : RegistryState := ⟨[("nodes/n1", "v")], ["n1"]⟩

/-- An empty registry state. -/
def c1EmptyState : RegistryState := ⟨[], []⟩

/-- Claim C1 counterexample: on a registered node with an active
monitor, the inbound gRPC unregister and the REST delete end in
different final states, because only the gRPC path stops monitoring. -/
theorem c1_counterexample :
    (unregisterNodeGrpc c1CexState "n1").2 ≠
      (unregisterNodeRest c1CexState "n1").2 := by decide

/-- Claim C1 amended: both paths fail when no record exists at the node
key and otherwise delete the key, agreeing on the final registry; the
gRPC path additionally removes the uuid from the monitor map, while the
REST handler leaves the monitor map unchanged. -/
theorem c1_unregister_paths (stA stB : RegistryState) (uuid v : String)
    (hu : uuid ≠ "") (ha : etcdGet stA.nodes ("nodes/" ++ uuid) = none)
    (hb : etcdGet stB.nodes ("nodes/" ++ uuid) = some v) :
    unregisterNodeGrpc stA uuid =
      (GrpcUnregOut.failure "node not registered", stA) ∧
    unregisterNodeRest stA uuid = (⟨404, "Node not found"⟩, stA) ∧
    unregisterNodeGrpc stB uuid =
      (GrpcUnregOut.success,
       ⟨etcdDelete stB.nodes ("nodes/" ++ uuid),
        stopMonitoringMap stB.monitors uuid⟩) ∧
    unregisterNodeRest stB uuid =
      (⟨200, "Node unregistered successfully"⟩,
       ⟨etcdDelete stB.nodes ("nodes/" ++ uuid), stB.monitors⟩) ∧
    (unregisterNodeGrpc stB uuid).2.nodes =
      (unregisterNodeRest stB uuid).2.nodes := by
  refine ⟨?_, ?_, ?_, ?_, ?_⟩ <;>
    simp [unregisterNodeGrpc, unregisterNodeRest, hu, ha, hb]

/-- Claim C1 witness: the amended statement applied at a missing node
and at the registered node of the counterexample. -/
theorem c1_unregister_paths_witness :
    ("n1" : String) ≠ "" ∧
    etcdGet c1EmptyState.nodes ("nodes/" ++ "n1") = none ∧
    etcdGet c1CexState.nodes ("nodes/" ++ "n1") = some "v" ∧
    unregisterNodeGrpc c1EmptyState "n1" =
      (GrpcUnregOut.failure "node not registered", c1EmptyState) ∧
    unregisterNodeGrpc c1CexState "n1" =
      (GrpcUnregOut.success,
       ⟨etcdDelete c1CexState.nodes ("nodes/" ++ "n1"),
        stopMonitoringMap c1CexState.monitors "n1"⟩) ∧
    unregisterNodeRest c1CexState "n1" =
      (⟨200, "Node unregistered successfully"⟩,
       ⟨etcdDelete c1CexState.nodes ("nodes/" ++ "n1"),
        c1CexState.monitors⟩) := by
  have h := c1_unregister_paths c1EmptyState c1CexState "n1" "v"
    (by decide) (by decide) (by decide)
  exact ⟨by decide, by decide, by decide, h.1, h.2.2.1, h.2.2.2.1⟩

/-- A monitor manager state where node n1 is monitored and the registry
holds one per-user series labelled with n1. -/
def c2CexMgr : MonitorMgrState :=
  ⟨["n1"], [⟨"fastrg_node_per_user_rx_packets_total", ["n1", "0", "7"]⟩]⟩

/-- Claim C2: the code evaluated at the failing input.  After the stop
path for n1 completes, the per-user series labelled with node_uuid n1
is still present in the registry, although the monitor entry is gone:
deleteNodeMetrics touches only the seven NIC-indexed families at nic
indices 0 and 1, contradicting its own stated intent of removing every
metric carrying the node uuid. -/
theorem c2_stop_leaves_series :
    (stopMonitoringLocked c2CexMgr "n1").monitors = [] ∧
    Series.mk "fastrg_node_per_user_rx_packets_total" ["n1", "0", "7"] ∈
      (stopMonitoringLocked c2CexMgr "n1").registry ∧
    "n1" ∈ (Series.mk "fastrg_node_per_user_rx_packets_total"
      ["n1", "0", "7"]).labelValues := by decide

/-- The scrape response stats of a NIC whose per-user list is empty. -/
def c9CexStats : List NicStat := [⟨0, 0, 0, 0, 0, 0, 0, []⟩]

/-- Claim C9 counterexample: on a NIC stat with an empty per-user list,
the unknown-user read at slot length minus one is out of range (the Go
expression panics), so not every access is within bounds. -/
theorem c9_counterexample :
    getNicCounter c9CexStats = none ∧
    goIdx (([] : List PerUserStat)) ((0 : Int) - 1) = none := by decide

/-- Claim C9 amended: when every NIC stat carries at least one per-user
slot, every access is within bounds: the per-user loop reads exactly the
slots before the last and the unknown-user read returns the last slot. -/
theorem c9_nic_bounds (stats : List NicStat)
    (h : ∀ s ∈ stats, s.perUserStats ≠ []) :
    getNicCounter stats = some (stats.map (fun s =>
      (s.perUserStats.dropLast, s.perUserStats.getLastD default))) := by
  induction stats with
  | nil => simp [getNicCounter]
  | cons s rest ih =>
      have h1 := nicAccess_of_ne_nil s (h s (List.mem_cons_self s rest))
      have h2 := ih (fun t ht => h t (List.mem_cons_of_mem s ht))
      simp only [getNicCounter, h1, h2, Option.map_some', List.map_cons]

/-- Concrete scrape stats with two per-user slots on one NIC. -/
def c9WStats : List NicStat :=
  [⟨1, 2, 3, 4, 5, 6, 7, [⟨1, 0, 0, 0, 0, 0, 0⟩, ⟨2, 9, 9, 9, 9, 9, 9⟩]⟩]

/-- Claim C9 witness: the amended statement applied at concrete stats
with a nonempty per-user list. -/
theorem c9_nic_bounds_witness :
    (∀ s ∈ c9WStats, s.perUserStats ≠ []) ∧
    getNicCounter c9WStats = some (c9WStats.map (fun s =>
      (s.perUserStats.dropLast, s.perUserStats.getLastD default))) :=
  ⟨by decide, c9_nic_bounds c9WStats (by decide)⟩

/-- A history store holding one decodable event without a string
event_type field. -/
def c8CexFe : KVStore FEStored :=
  [("failed_events_history/n1/1", FEStored.parsed none "p")]

/-- Claim C8 counterexample: with filter x, the handler keeps the parsed
event lacking a string event_type field, while the claim as stated
returns only events whose event_type exactly matches. -/
theorem c8_counterexample :
    getAllFailedEvents c8CexFe "x" ≠ specAllFailedEventsClaim c8CexFe "x" := by
  decide

/-- Claim C8 amended: the read APIs return the decoded history entries
of the requested range in descending key order, and a supplied
event_type filter keeps exactly the events whose event_type field
matches it or which carry no string event_type field at all. -/
theorem c8_failed_events :
    (∀ (fe : KVStore FEStored) (f : String),
      getAllFailedEvents fe f = specAllFailedEventsAmended fe f) ∧
    (∀ (fe : KVStore FEStored) (nodeId : String), nodeId ≠ "" →
      getFailedEvents fe nodeId = FEResult.ok (specNodeFailedEvents fe nodeId)) ∧
    (∀ (fe : KVStore FEStored) (p : String),
      (rangeDesc fe p).Pairwise (fun a b => keyLe b.1 a.1 = true)) := by
  refine ⟨?_, ?_, ?_⟩
  · intro fe f
    rw [getAllFailedEvents, specAllFailedEventsAmended]
    apply List.filterMap_congr
    intro kv _
    cases kv.2 with
    | malformed => rfl
    | parsed et p =>
        by_cases hf : f = ""
        · simp [feKeep, hf]
        · cases et with
          | none => simp [feKeep, hf]
          | some t =>
              by_cases ht : t = f
              · simp [feKeep, hf, ht]
              · simp [feKeep, hf, ht, Ne.symm ht]
  · intro fe nodeId h
    rw [getFailedEvents, if_neg h, specNodeFailedEvents]
    refine congrArg FEResult.ok (List.filterMap_congr ?_)
    intro kv _
    cases kv.2 <;> rfl
  · intro fe p
    exact pairwise_rangeDesc fe p

/-- Claim C8 witness: the per-node conjunct applied at the concrete
history store with the nonempty node id hypothesis discharged. -/
theorem c8_failed_events_witness :
    ("n1" : String) ≠ "" ∧
    getFailedEvents c8CexFe "n1" =
      FEResult.ok (specNodeFailedEvents c8CexFe "n1") :=
  ⟨by decide, c8_failed_events.2.1 c8CexFe "n1" (by decide)⟩

end FastRG
